import Mathlib

/-!
# Verification of the easygpu GPU resource & render-command layer

A shallow embedding of the parts of the `easygpu` crate that the
specification's testable properties talk about:

* the texture copy/transfer/blit subsystem (`src/easygpu/src/texture.rs`),
* the binding-group factory operations (`src/easygpu/src/device.rs`),
* the framebuffer canvas implementation (`src/easygpu/src/buffers/frame.rs`),
* the asynchronous readback path (`src/easygpu/src/renderer.rs`).

Machine integers are modelled as `Nat` (u32/usize values) and `Int` (i32
values), with an explicit `% 2^32` wherever the Rust source performs u32
arithmetic (Rust release builds wrap on overflow, and `as u32` casts
truncate).  GPU-side effects are modelled as the argument records the code
hands to the driver (copy commands, queue-level calls), so that theorems can
talk about exactly what was recorded and submitted.
-/

namespace Easygpu

/-- The modulus of Rust `u32` arithmetic (`2^32`). -/
def U32MOD : Nat := 4294967296

/-- Truncating `i32 -> u32` cast (`n as u32`): the two's-complement bit
pattern, i.e. the nonnegative residue of `n` modulo `2^32`. -/
def i32AsU32 (n : Int) : Nat := (n % (U32MOD : Int)).toNat

/-- Wrapping `u32` subtraction `a - b` for `a b < 2^32` (Rust release-mode
semantics of `u32::sub`). -/
def u32Sub (a b : Nat) : Nat := (a + U32MOD - b) % U32MOD

/-! ## The external `figures` geometry crate

`easygpu` describes rectangles with the `figures` crate (out of scope for the
repository; an external collaborator per the spec).  Its `Rect<T>` is an
origin point plus a size, `Rect::extent` returns `origin + size`, and
`Rect::from_extents(p1, p2)` returns the rectangle spanning the two given
points: the origin is the componentwise minimum and the size the
componentwise absolute difference. -/

/-- `figures::Point<i32>`. -/
structure Point where
  x : Int
  y : Int
deriving DecidableEq, Repr

/-- `figures::Size<i32>`. -/
structure Size where
  width : Int
  height : Int
deriving DecidableEq, Repr

/-- `figures::Rect<i32>`: an origin point and a size. -/
structure Rect where
  origin : Point
  size : Size
deriving DecidableEq, Repr

/-- `figures::Rect::extent`: the corner opposite the origin, `origin + size`. -/
def Rect.extent (r : Rect) : Point :=
  ⟨r.origin.x + r.size.width, r.origin.y + r.size.height⟩

/-- `figures::Rect::from_extents(p1, p2)`: the rectangle spanning the two
points — componentwise-minimum origin, componentwise absolute difference as
the (hence non-negative) size. -/
def Rect.from_extents (p1 p2 : Point) : Rect :=
  ⟨⟨min p1.x p2.x, min p1.y p2.y⟩,
   ⟨max p1.x p2.x - min p1.x p2.x, max p1.y p2.y - min p1.y p2.y⟩⟩

/-- `figures::Size<u32>` (used by `blit`'s `Rect<u32>` arguments). -/
structure SizeU where
  width : Nat
  height : Nat
deriving DecidableEq, Repr

/-- `figures::Rect<u32>`. -/
structure RectU where
  origin_x : Nat
  origin_y : Nat
  size : SizeU
deriving DecidableEq, Repr

/-- `figures::Size::<u32>::area`: `width * height` in wrapping u32
arithmetic. -/
def SizeU.area32 (s : SizeU) : Nat := (s.width * s.height) % U32MOD

/-! ## Textures and framebuffers -/

/-- The CPU-visible shape of a `Texture` (`texture.rs`): its logical size.
`texture.extent` in the source holds the same width/height, so it is not
duplicated here. -/
structure Texture where
  width : Nat
  height : Nat
deriving DecidableEq, Repr

/-- `texture.size.area()` as the code computes it: a u32 product. -/
def Texture.area32 (t : Texture) : Nat := (t.width * t.height) % U32MOD

/-- `DepthBuffer` (`buffers`): a depth-only texture. -/
structure DepthBuffer where
  texture : Texture
deriving DecidableEq, Repr

/-- `Framebuffer` (`buffers/frame.rs`): a color texture plus a depth
buffer. -/
structure Framebuffer where
  texture : Texture
  depth : DepthBuffer
deriving DecidableEq, Repr

/-- `Framebuffer::size`: `texture.size.area() as usize`. -/
def Framebuffer.size (fb : Framebuffer) : Nat := fb.texture.area32

/-- A 32-bit texel bit pattern.  `fill`/`clear`/`transfer` are generic over
4-byte `Pod` texel types (`Rgba8`, `Bgra8`, `f32`), which the source
reinterprets bytewise via `align_to::<Rgba8>`; a texel is therefore modelled
by its 32-bit pattern (`0f32` has pattern `0`). -/
abbrev Word32 := Nat

/-! ## `Texture::fill` and `Texture::clear` (`texture.rs`) -/

/-- The ways `Texture::fill` can abort: its length assertion
(`"fatal: incorrect length for texel buffer"`), or the division by
`texture.extent.height` when the height is zero (a Rust panic). -/
inductive FillError where
  | lengthAssert
  | divByZero
deriving DecidableEq, Repr

/-- The buffer-to-texture copy recorded by `Texture::fill` /
`Texture::transfer` via `Texture::copy`: target texture, uploaded texel
data, destination origin, copy extent, and the `TexelCopyBufferLayout`
fields. -/
structure FillAction where
  target : Texture
  texels : List Word32
  origin_x : Nat
  origin_y : Nat
  extent_w : Nat
  extent_h : Nat
  bytes_per_row : Nat
  rows_per_image : Nat
deriving DecidableEq, Repr

/-- `Texture::fill(texture, texels, ..)`: asserts
`texels.len() as u32 >= texture.size.area()`, uploads `texels`, and records
a copy over the texture's full extent at origin `(0, 0)` with
`bytes_per_row = texels.len() as u32 / texture.extent.height * 4` (wrapping
u32 arithmetic; the division panics when the height is zero). -/
def Texture.fill (t : Texture) (texels : List Word32) : Except FillError FillAction :=
  if t.area32 ≤ texels.length % U32MOD then
    if t.height = 0 then .error .divByZero
    else
      .ok { target := t, texels := texels,
            origin_x := 0, origin_y := 0,
            extent_w := t.width, extent_h := t.height,
            bytes_per_row := (texels.length % U32MOD / t.height * 4) % U32MOD,
            rows_per_image := t.height }
  else .error .lengthAssert

/-- `Texture::clear(texture, value, ..)`: materializes
`texture.size.area()`-many copies of `value` (reinterpreted as 4-byte
texels) and delegates to `Texture::fill`. -/
def Texture.clear (t : Texture) (value : Word32) : Except FillError FillAction :=
  Texture.fill t (List.replicate t.area32 value)

/-! ## `Texture::transfer` (`texture.rs`) -/

/-- The "make sure we have a positive rectangle" step of
`Texture::transfer`: `Rect::from_extents` applied to the componentwise
minimum of the input's corners and to the componentwise absolute
differences of the corners' coordinates. -/
def Texture.transfer_normalize (rect : Rect) : Rect :=
  Rect.from_extents
    ⟨min rect.origin.x rect.extent.x, min rect.origin.y rect.extent.y⟩
    ⟨max rect.extent.x rect.origin.x - min rect.origin.x rect.extent.x,
     max rect.extent.y rect.origin.y - min rect.origin.y rect.extent.y⟩

/-- The "flip y" step of `Texture::transfer`: `Rect::from_extents` applied
to the two swapped-y corners of the normalized rectangle. -/
def Texture.transfer_flip (destination : Rect) : Rect :=
  Rect.from_extents
    ⟨destination.origin.x, destination.extent.y⟩
    ⟨destination.extent.x, destination.origin.y⟩

/-- The ways `Texture::transfer` can abort: its area assertion
(`"fatal: transfer size must be <= texture size"`), or the division by
`destination_size.height` when that height is zero. -/
inductive TransferError where
  | sizeAssert
  | divByZero
deriving DecidableEq, Repr

/-- The buffer-to-texture copy recorded by `Texture::transfer`: destination
origin (`destination_point`), copy extent (`destination_size`), and layout
fields, all u32 values. -/
structure TransferCmd where
  origin_x : Nat
  origin_y : Nat
  width : Nat
  height : Nat
  bytes_per_row : Nat
  rows_per_image : Nat
deriving DecidableEq, Repr

/-- `Texture::transfer(texture, texels, rect, ..)`: normalizes `rect`,
applies the y-flip step, computes `destination_size` by `as u32` casts of
the resulting size, computes
`destination_point = (origin.x as u32, texture.size.height - origin.y as u32)`
(wrapping u32 subtraction), asserts
`destination_size.area() <= texture.size.area()`, and records the copy with
`bytes_per_row = texels.len() as u32 / destination_size.height * 4`.
`texelsLen` is `texels.len()`. -/
def Texture.transfer (t : Texture) (texelsLen : Nat) (rect0 : Rect) :
    Except TransferError TransferCmd :=
  let destination := Texture.transfer_normalize rect0
  let rect := Texture.transfer_flip destination
  let dsW := i32AsU32 rect.size.width
  let dsH := i32AsU32 rect.size.height
  let dpX := i32AsU32 rect.origin.x
  let dpY := u32Sub t.height (i32AsU32 rect.origin.y)
  if (dsW * dsH) % U32MOD ≤ t.area32 then
    if dsH = 0 then .error .divByZero
    else
      .ok { origin_x := dpX, origin_y := dpY,
            width := dsW, height := dsH,
            bytes_per_row := (texelsLen % U32MOD / dsH * 4) % U32MOD,
            rows_per_image := dsH }
  else .error .sizeAssert

/-! ## `Texture::blit` (`texture.rs`) -/

/-- The texture-to-texture copy recorded by `Texture::blit`: source origin,
destination origin, and the extent taken from the source rectangle's size. -/
structure BlitCmd where
  src_x : Nat
  src_y : Nat
  dst_x : Nat
  dst_y : Nat
  width : Nat
  height : Nat
deriving DecidableEq, Repr

/-- `Texture::blit(&self, src, dst, ..)`: asserts
`src.size.area() != dst.size.area()` (the deliberately inverted guard) and
records a texture-to-texture copy from `src.origin` to `dst.origin` with
`src.size` as the extent. -/
def Texture.blit (src dst : RectU) : Except String BlitCmd :=
  if src.size.area32 ≠ dst.size.area32 then
    .ok { src_x := src.origin_x, src_y := src.origin_y,
          dst_x := dst.origin_x, dst_y := dst.origin_y,
          width := src.size.width, height := src.size.height }
  else .error "source and destination rectangles must be of the same size"

/-! ## `<Framebuffer as Canvas>::clear` (`buffers/frame.rs`) -/

/-- `<Framebuffer as Canvas>::clear(color, ..)`: clears the color texture
with `color` and the depth texture with `0f32` (texel bit pattern `0`), in
that order, each via `Texture::clear`. -/
def Framebuffer.clear (fb : Framebuffer) (color : Word32) :
    List (Except FillError FillAction) :=
  [Texture.clear fb.texture color, Texture.clear fb.depth.texture 0]

/-! ## Binding model (`binding.rs`, `device.rs`) -/

/-- `BindingType` (`binding.rs`). -/
inductive BindingType where
  | uniformBuffer
  | uniformBufferDynamic
  | sampler
  | sampledTexture (multisampled : Bool)
deriving DecidableEq, Repr

/-- The shape of `wgpu::BindingType` as produced by the
`From<BindingType>` impl in `binding.rs`. -/
inductive WgpuBindingType where
  | buffer (hasDynamicOffset : Bool)
  | texture (multisampled : Bool)
  | sampler
deriving DecidableEq, Repr

/-- The `From<BindingType> for wgpu::BindingType` conversion
(`binding.rs`). -/
def BindingType.toWgpu : BindingType → WgpuBindingType
  | .uniformBuffer => .buffer false
  | .uniformBufferDynamic => .buffer true
  | .sampledTexture m => .texture m
  | .sampler => .sampler

/-- A shader-stage visibility mask (`wgpu::ShaderStages` bits). -/
abbrev ShaderStages := Nat

/-- `Binding` (`binding.rs`): a slot declaration. -/
structure Binding where
  binding : BindingType
  stage : ShaderStages
deriving DecidableEq, Repr

/-- A compiled `wgpu::BindGroupLayoutEntry` as built in
`Device::create_binding_group_layout`. -/
structure BindGroupLayoutEntry where
  binding : Nat
  visibility : ShaderStages
  ty : WgpuBindingType
deriving DecidableEq, Repr

/-- `BindingGroupLayout` (`binding.rs`), together with the compiled entry
list handed to the driver. -/
structure BindingGroupLayout where
  set_index : Nat
  entries : List BindGroupLayoutEntry
  size : Nat
deriving DecidableEq, Repr

/-- `Device::create_binding_group_layout(index, slots)` (`device.rs`): the
loop pushes one entry per slot with `binding: bindings.len()` — the entry's
position at push time — and the layout records `bindings.len()` as its
size. -/
def Device.create_binding_group_layout (index : Nat) (slots : List Binding) :
    BindingGroupLayout :=
  let bindings := slots.enum.map fun p =>
    ({ binding := p.1, visibility := p.2.stage, ty := p.2.binding.toWgpu } :
      BindGroupLayoutEntry)
  { set_index := index, entries := bindings, size := bindings.length }

/-- An opaque GPU resource handle; `Bind::binding(&self, index)` describes a
resource as a `wgpu::BindGroupEntry { binding: index, resource: .. }`, so a
resource is modelled by an identifier. -/
abbrev Resource := Nat

/-- A `wgpu::BindGroupEntry` as built in `Device::create_binding_group`. -/
structure BindGroupEntry where
  binding : Nat
  resource : Resource
deriving DecidableEq, Repr

/-- `BindingGroup` (`binding.rs`), with the entry list handed to the
driver. -/
structure BindingGroup where
  set_index : Nat
  entries : List BindGroupEntry
deriving DecidableEq, Repr

/-- `Device::create_binding_group(layout, binds)` (`device.rs`):
`assert_eq!(binds.len(), layout.size, "layout slot count does not match bindings")`,
then one `BindGroupEntry` per resource in slot order, each asked to describe
itself at its position index. -/
def Device.create_binding_group (layout : BindingGroupLayout)
    (binds : List Resource) : Except String BindingGroup :=
  if binds.length = layout.size then
    .ok { set_index := layout.set_index,
          entries := binds.enum.map fun p => { binding := p.1, resource := p.2 } }
  else .error "layout slot count does not match bindings"

/-! ## `Renderer::read` (`renderer.rs`)

The readback path is modelled in two parts: the driver-level calls the
function makes before entering its map-wait loop, and the pure post-wait
processing of the mapped bytes. -/

/-- The driver-level calls `Renderer::read` can make. -/
inductive DriverCall where
  | createCommandEncoder
  | createBuffer (size : Nat)
  | encodeCopyTextureToBuffer (bytes_per_row : Nat) (rows_per_image : Nat)
  | queueSubmit
  | mapAsync
deriving DecidableEq, Repr

/-- The sequence of driver-level calls `Renderer::read(fb, f)` makes before
entering its map-wait loop, in program order: it creates an encoder, creates
the staging buffer of `4 * fb.size()` bytes, records (but does not submit)
the texture-to-buffer copy, and requests the asynchronous mapping.  The
queue submission present in the upstream code is commented out in this
source, and no call inside the wait loop touches the driver either. -/
def Renderer.read_calls_before_wait (fb : Framebuffer) : List DriverCall :=
  [.createCommandEncoder,
   .createBuffer (4 * fb.size),
   .encodeCopyTextureToBuffer ((4 * fb.texture.width) % U32MOD) fb.texture.height,
   .mapAsync]

/-- Modelled from the spec: the `Bgra8` pixel type (`crate::color`, whose
source file is not in the repository snapshot) is the 4-byte-per-pixel
readback format ("row pitch computed as 4 bytes × width"), with byte
alignment 1, so `align_to::<Bgra8>` on a byte buffer has an empty head and a
tail of `len % 4` bytes. -/
def Bgra8.byteSize : Nat := 4

/-- The observable actions of `Renderer::read` after its map wait. -/
inductive PostAction where
  | invokeCallback (pixelCount : Nat)
  | unmapBuffer
  | panicAbort
deriving DecidableEq, Repr

/-- The post-wait tail of `Renderer::read`: the mapped bytes are copied into
a `Vec<u8>`; only `if buffer.len() == bytesize` does it reinterpret them via
`align_to::<Bgra8>` (panicking when the tail `len % 4` is non-empty) and
invoke the callback on the `len / 4` typed pixels; the staging buffer is
unmapped afterwards in every non-panicking path. -/
def Renderer.read_postprocess (bytesize mappedLen : Nat) : List PostAction :=
  if mappedLen = bytesize then
    if mappedLen % Bgra8.byteSize = 0 then
      [.invokeCallback (mappedLen / Bgra8.byteSize), .unmapBuffer]
    else [.panicAbort]
  else [.unmapBuffer]

/-! ## Helper lemmas -/

/-- `Texture::clear` on a texture of non-zero height records a full-extent
copy of `area`-many copies of the value. -/
theorem Texture.clear_ok (t : Texture) (v : Word32) (h : t.height ≠ 0) :
    Texture.clear t v =
      .ok { target := t, texels := List.replicate t.area32 v,
            origin_x := 0, origin_y := 0,
            extent_w := t.width, extent_h := t.height,
            bytes_per_row := (t.area32 / t.height * 4) % U32MOD,
            rows_per_image := t.height } := by
  have hlt : t.area32 < U32MOD := by
    simp only [Texture.area32]
    exact Nat.mod_lt _ (by decide)
  simp only [Texture.clear, Texture.fill, List.length_replicate,
    Nat.mod_eq_of_lt hlt]
  rw [if_pos (le_refl _), if_neg h]

/-! ## Theorems about the claims -/

/-- C1: the claim states that every `Renderer::read` call submits the
recorded framebuffer-to-staging-buffer copy to the driver queue exactly
once before awaiting the map.  In this source the submission is commented
out: the calls made before the map-wait loop contain zero queue
submissions, so the loop awaits a mapping of a buffer the copy was never
submitted for. -/
theorem read_records_zero_submissions (fb : Framebuffer) :
    (Renderer.read_calls_before_wait fb).count DriverCall.queueSubmit = 0 := by
  rfl

/-- C2: the claim states that `transfer`'s normalization step yields a
rectangle with non-negative size, min-corner origin, and the absolute area
of the signed input.  For the input rectangle with corners `(5,5)` and
`(6,6)` (origin `(5,5)`, size `(1,1)`, absolute area `1`), the code instead
computes the rectangle with origin `(1,1)` and size `(4,4)` (area `16`),
because the second argument it passes to `Rect::from_extents` is the
absolute size, not the maximum corner. -/
theorem transfer_normalize_loses_origin_and_area :
    Texture.transfer_normalize ⟨⟨5, 5⟩, ⟨1, 1⟩⟩ = ⟨⟨1, 1⟩, ⟨4, 4⟩⟩ ∧
    (Texture.transfer_normalize ⟨⟨5, 5⟩, ⟨1, 1⟩⟩).origin ≠ ⟨5, 5⟩ ∧
    ((Texture.transfer_normalize ⟨⟨5, 5⟩, ⟨1, 1⟩⟩).size.width *
      (Texture.transfer_normalize ⟨⟨5, 5⟩, ⟨1, 1⟩⟩).size.height = 16) ∧
    ((⟨⟨5, 5⟩, ⟨1, 1⟩⟩ : Rect).size.width *
      (⟨⟨5, 5⟩, ⟨1, 1⟩⟩ : Rect).size.height).natAbs = 1 := by
  decide

/-- C3: the claim states that the destination origin's y-coordinate equals
`texture.height` minus the bottom edge (max y) of the normalized rectangle.
On a 4×4 texture with input rectangle `(0,0)` size `(2,2)` (normalized
bottom edge `2`, so the claim requires `y = 4 - 2 = 2`), the recorded copy
has `y = 4`: the y-flip step re-normalizes the swapped corners back into
the same rectangle, so the code subtracts the top edge (min y) instead of
the bottom edge. -/
theorem transfer_destination_y_ignores_flip :
    Texture.transfer ⟨4, 4⟩ 4 ⟨⟨0, 0⟩, ⟨2, 2⟩⟩ =
      .ok ⟨0, 4, 2, 2, 8, 2⟩ ∧
    (Texture.transfer_normalize ⟨⟨0, 0⟩, ⟨2, 2⟩⟩).extent.y = 2 ∧
    (4 : Nat) ≠ 4 - 2 := by
  refine ⟨rfl, by decide, by decide⟩

/-- C4: `Device::create_binding_group(layout, resources)` succeeds exactly
when `resources.len() == layout.size` (otherwise its assertion aborts), and
a constructed group's entry list is the full resource list in slot order —
entry `i` is resource `i` described at binding index `i` — never truncated
or padded. -/
theorem create_binding_group_requires_exact_count
    (L : BindingGroupLayout) (R : List Resource) :
    ((∃ g, Device.create_binding_group L R = .ok g) ↔ R.length = L.size) ∧
    ∀ g, Device.create_binding_group L R = .ok g →
      ∀ i : Nat, g.entries[i]? =
        (R[i]?).map fun r => { binding := i, resource := r } := by
  constructor
  · constructor
    · rintro ⟨g, hg⟩
      by_contra h
      simp only [Device.create_binding_group, if_neg h] at hg
      exact Except.noConfusion hg
    · intro h
      simp only [Device.create_binding_group, if_pos h]
      exact ⟨_, rfl⟩
  · intro g hg i
    by_cases h : R.length = L.size
    · simp only [Device.create_binding_group, if_pos h, Except.ok.injEq] at hg
      subst hg
      simp only [List.getElem?_map, List.getElem?_enum, Option.map_map]
      cases R[i]? <;> rfl
    · simp only [Device.create_binding_group, if_neg h] at hg
      exact Except.noConfusion hg

/-- Witness for C4: a layout of two slots accepts exactly two resources and
binds them in order. -/
theorem create_binding_group_requires_exact_count_witness :
    Device.create_binding_group
        (Device.create_binding_group_layout 0 [⟨.uniformBuffer, 1⟩, ⟨.sampler, 2⟩])
        [7, 9] =
      .ok ⟨0, [⟨0, 7⟩, ⟨1, 9⟩]⟩ ∧
    (⟨0, [⟨0, 7⟩, ⟨1, 9⟩]⟩ : BindingGroup).entries[1]? =
      (([7, 9] : List Resource)[1]?).map fun r => ⟨1, r⟩ :=
  ⟨by rfl,
   (create_binding_group_requires_exact_count
      (Device.create_binding_group_layout 0 [⟨.uniformBuffer, 1⟩, ⟨.sampler, 2⟩])
      [7, 9]).2 ⟨0, [⟨0, 7⟩, ⟨1, 9⟩]⟩ (by rfl) 1⟩

/-- C5: `Texture::blit` fails its (deliberately inverted) assertion exactly
on rectangles whose reported u32 areas are identical, and records the
texture-to-texture copy whenever the areas differ. -/
theorem blit_rejects_equal_area_only (src dst : RectU) :
    (src.size.area32 = dst.size.area32 →
      Texture.blit src dst =
        .error "source and destination rectangles must be of the same size") ∧
    (src.size.area32 ≠ dst.size.area32 →
      Texture.blit src dst =
        .ok ⟨src.origin_x, src.origin_y, dst.origin_x, dst.origin_y,
             src.size.width, src.size.height⟩) := by
  constructor
  · intro h
    rw [Texture.blit, if_neg (not_not_intro h)]
  · intro h
    rw [Texture.blit, if_pos h]

/-- Witness for C5: a same-area blit is rejected, a different-area blit
passes the guard. -/
theorem blit_rejects_equal_area_only_witness :
    Texture.blit ⟨0, 0, ⟨2, 2⟩⟩ ⟨1, 1, ⟨2, 2⟩⟩ =
      .error "source and destination rectangles must be of the same size" ∧
    Texture.blit ⟨0, 0, ⟨2, 1⟩⟩ ⟨0, 0, ⟨1, 1⟩⟩ = .ok ⟨0, 0, 0, 0, 2, 1⟩ :=
  ⟨(blit_rejects_equal_area_only ⟨0, 0, ⟨2, 2⟩⟩ ⟨1, 1, ⟨2, 2⟩⟩).1 (by decide),
   (blit_rejects_equal_area_only ⟨0, 0, ⟨2, 1⟩⟩ ⟨0, 0, ⟨1, 1⟩⟩).2 (by decide)⟩

/-- C6 counterexample: the claim states that a mapped byte length that is
not an exact multiple of the pixel size fails fatally.  With the expected
byte size `4` (a 1×1 framebuffer) and mapped length `2` — not a multiple of
the 4-byte pixel size — the code neither panics nor invokes the callback:
it silently unmaps, because the callback branch is guarded by an equality
test against the expected byte size, not by the alignment check. -/
theorem read_postprocess_skips_short_map_silently :
    Renderer.read_postprocess 4 2 = [PostAction.unmapBuffer] ∧
    2 % Bgra8.byteSize ≠ 0 := by
  decide

/-- C6 (amended): after the map wait, the callback is invoked exactly once
with the typed pixel view and the buffer is then unmapped precisely when
the mapped byte length equals the expected `4 × area` bytes; every other
mapped length — a multiple of the pixel size or not — is silently skipped
(no fatal error) and the buffer is unmapped. -/
theorem read_postprocess_callback_iff_exact_size (area mappedLen : Nat) :
    (mappedLen = 4 * area →
      Renderer.read_postprocess (4 * area) mappedLen =
        [.invokeCallback area, .unmapBuffer]) ∧
    (mappedLen ≠ 4 * area →
      Renderer.read_postprocess (4 * area) mappedLen = [.unmapBuffer]) := by
  constructor
  · intro h
    subst h
    simp [Renderer.read_postprocess, Bgra8.byteSize, Nat.mul_mod_right,
      Nat.mul_div_cancel_left]
  · intro h
    simp [Renderer.read_postprocess, h]

/-- Witness for C6 (amended): with expected size `4`, mapped length `4`
invokes the callback on one pixel and unmaps; mapped length `6` silently
unmaps. -/
theorem read_postprocess_callback_iff_exact_size_witness :
    Renderer.read_postprocess (4 * 1) 4 =
      [PostAction.invokeCallback 1, PostAction.unmapBuffer] ∧
    Renderer.read_postprocess (4 * 1) 6 = [PostAction.unmapBuffer] :=
  ⟨(read_postprocess_callback_iff_exact_size 1 4).1 (by decide),
   (read_postprocess_callback_iff_exact_size 1 6).2 (by decide)⟩

/-- C7 counterexample: the claim states the assertion's failure branch is
unreachable whenever `texels.len() >= texture.area()`.  On a 64-bit
platform a buffer of `2^32` texels satisfies the precondition for a 1×1
texture, yet `texels.len() as u32` truncates to `0` and the assertion
fires. -/
theorem fill_assert_fires_despite_precondition :
    Texture.fill ⟨1, 1⟩ (List.replicate U32MOD 0) = .error FillError.lengthAssert ∧
    Texture.area32 ⟨1, 1⟩ ≤ (List.replicate U32MOD (0 : Word32)).length := by
  have hlen : (List.replicate U32MOD (0 : Word32)).length = U32MOD := by
    simp
  have key : ∀ xs : List Word32, xs.length = U32MOD →
      Texture.fill ⟨1, 1⟩ xs = .error FillError.lengthAssert := by
    intro xs hxs
    simp only [Texture.fill, hxs]
    rw [if_neg (by decide)]
  constructor
  · exact key _ hlen
  · rw [hlen]
    decide

/-- C7 (amended): `fill`'s length precondition is enforced through the
truncating u32 cast of `texels.len()`: a call with `len == area` passes the
guard, a call with `len < area` fails it fatally, and the failure branch is
unreachable under the precondition provided `len < 2^32`. -/
theorem fill_length_guard_behavior (t : Texture) (xs : List Word32) :
    (xs.length = t.area32 → Texture.fill t xs ≠ .error FillError.lengthAssert) ∧
    (xs.length < t.area32 → Texture.fill t xs = .error FillError.lengthAssert) ∧
    (t.area32 ≤ xs.length → xs.length < U32MOD →
      Texture.fill t xs ≠ .error FillError.lengthAssert) := by
  have hlt : t.area32 < U32MOD := by
    simp only [Texture.area32]
    exact Nat.mod_lt _ (by decide)
  have pass : ∀ hle : t.area32 ≤ xs.length, xs.length < U32MOD →
      Texture.fill t xs ≠ .error FillError.lengthAssert := by
    intro hle hsm
    simp only [Texture.fill, Nat.mod_eq_of_lt hsm]
    rw [if_pos hle]
    split <;> simp
  refine ⟨fun h => pass (le_of_eq h.symm) (h ▸ hlt), ?_, pass⟩
  intro h
  simp only [Texture.fill, Nat.mod_eq_of_lt (lt_trans h hlt)]
  rw [if_neg (by omega)]

/-- Witness for C7 (amended): on a 1×1 texture, one texel passes the
guard and an empty buffer fails it. -/
theorem fill_length_guard_behavior_witness :
    Texture.fill ⟨1, 1⟩ [0] ≠ .error FillError.lengthAssert ∧
    Texture.fill ⟨1, 1⟩ ([] : List Word32) = .error FillError.lengthAssert :=
  ⟨(fill_length_guard_behavior ⟨1, 1⟩ [0]).1 (by decide),
   (fill_length_guard_behavior ⟨1, 1⟩ []).2.1 (by decide)⟩

/-- C8 counterexample: the claim states that every `fill` call satisfying
`texels.len() >= texture.area()` records `bytes_per_row = 4 × width`.  A
1×1 texture filled from a 2-texel buffer satisfies the precondition, yet
the recorded pitch is `texels.len() / height * 4 = 8`, not `4 × 1 = 4`. -/
theorem fill_pitch_exceeds_width_on_long_buffer :
    Texture.fill ⟨1, 1⟩ [0, 0] = .ok ⟨⟨1, 1⟩, [0, 0], 0, 0, 1, 1, 8, 1⟩ ∧
    (8 : Nat) ≠ 4 * 1 :=
  ⟨by rfl, by decide⟩

/-- C8 (amended): for every `fill` call whose texel count equals the
texture's area exactly (positive height, sizes within u32 range), the
recorded copy has `bytes_per_row = 4 × width`, destination origin `(0,0)`,
and the texture's full extent. -/
theorem fill_pitch_equals_width_on_exact_buffer (t : Texture) (xs : List Word32)
    (hlen : xs.length = t.width * t.height) (hh : 0 < t.height)
    (harea : t.width * t.height < U32MOD) (hrow : 4 * t.width < U32MOD) :
    Texture.fill t xs =
      .ok { target := t, texels := xs, origin_x := 0, origin_y := 0,
            extent_w := t.width, extent_h := t.height,
            bytes_per_row := 4 * t.width, rows_per_image := t.height } := by
  have harea32 : t.area32 = t.width * t.height := by
    simp only [Texture.area32]
    exact Nat.mod_eq_of_lt harea
  simp only [Texture.fill, hlen, Nat.mod_eq_of_lt harea, harea32]
  rw [if_pos (le_refl _), if_neg hh.ne']
  have hdiv : t.width * t.height / t.height = t.width := Nat.mul_div_cancel _ hh
  rw [hdiv, Nat.mul_comm t.width 4, Nat.mod_eq_of_lt hrow]

/-- Witness for C8 (amended): a 2×2 texture filled from exactly four texels
records pitch `8 = 4 × 2` over the full 2×2 extent. -/
theorem fill_pitch_equals_width_on_exact_buffer_witness :
    (List.replicate 4 (0 : Word32)).length = 2 * 2 ∧
    Texture.fill ⟨2, 2⟩ (List.replicate 4 0) =
      .ok { target := ⟨2, 2⟩, texels := List.replicate 4 0, origin_x := 0,
            origin_y := 0, extent_w := 2, extent_h := 2,
            bytes_per_row := 4 * 2, rows_per_image := 2 } :=
  ⟨by decide,
   fill_pitch_equals_width_on_exact_buffer ⟨2, 2⟩ (List.replicate 4 0)
     (by decide) (by decide) (by decide) (by decide)⟩

/-- C9: `Device::create_binding_group_layout(index, slots)` produces a
layout whose slot count is exactly `slots.len()` and whose compiled entry
at position `i` carries binding index `i` (its position, not any number
carried in the slot description), with the slot's own stage visibility and
converted binding type. -/
theorem create_binding_group_layout_positional (index : Nat) (slots : List Binding) :
    (Device.create_binding_group_layout index slots).size = slots.length ∧
    (Device.create_binding_group_layout index slots).set_index = index ∧
    ∀ i : Nat, (Device.create_binding_group_layout index slots).entries[i]? =
      (slots[i]?).map fun s =>
        { binding := i, visibility := s.stage, ty := s.binding.toWgpu } := by
  refine ⟨?_, rfl, ?_⟩
  · simp [Device.create_binding_group_layout]
  · intro i
    simp only [Device.create_binding_group_layout, List.getElem?_map,
      List.getElem?_enum, Option.map_map]
    cases slots[i]? <;> rfl

/-- C10: `<Framebuffer as Canvas>::clear` clears both components of the
pair: it records a full fill of the color texture with the given color and
a full fill of the depth texture with the zero depth value, in that
order. -/
theorem framebuffer_clear_fills_color_and_depth (fb : Framebuffer)
    (color : Word32) (hc : fb.texture.height ≠ 0)
    (hd : fb.depth.texture.height ≠ 0) :
    ∃ ca da : FillAction,
      Framebuffer.clear fb color = [.ok ca, .ok da] ∧
      ca.target = fb.texture ∧
      ca.texels = List.replicate fb.texture.area32 color ∧
      da.target = fb.depth.texture ∧
      da.texels = List.replicate fb.depth.texture.area32 0 := by
  refine
    ⟨{ target := fb.texture, texels := List.replicate fb.texture.area32 color,
       origin_x := 0, origin_y := 0, extent_w := fb.texture.width,
       extent_h := fb.texture.height,
       bytes_per_row := (fb.texture.area32 / fb.texture.height * 4) % U32MOD,
       rows_per_image := fb.texture.height },
     { target := fb.depth.texture,
       texels := List.replicate fb.depth.texture.area32 0,
       origin_x := 0, origin_y := 0, extent_w := fb.depth.texture.width,
       extent_h := fb.depth.texture.height,
       bytes_per_row :=
         (fb.depth.texture.area32 / fb.depth.texture.height * 4) % U32MOD,
       rows_per_image := fb.depth.texture.height }, ?_, rfl, rfl, rfl, rfl⟩
  simp only [Framebuffer.clear, Texture.clear_ok _ _ hc, Texture.clear_ok _ _ hd]

/-- Witness for C10: clearing a 2×2 framebuffer with color `7` fills the
color texture with four `7`s and the depth texture with four `0`s. -/
theorem framebuffer_clear_fills_color_and_depth_witness :
    (⟨⟨2, 2⟩, ⟨⟨2, 2⟩⟩⟩ : Framebuffer).texture.height ≠ 0 ∧
    ∃ ca da : FillAction,
      Framebuffer.clear ⟨⟨2, 2⟩, ⟨⟨2, 2⟩⟩⟩ 7 = [.ok ca, .ok da] ∧
      ca.target = (⟨⟨2, 2⟩, ⟨⟨2, 2⟩⟩⟩ : Framebuffer).texture ∧
      ca.texels = List.replicate (Texture.area32 ⟨2, 2⟩) 7 ∧
      da.target = (⟨⟨2, 2⟩, ⟨⟨2, 2⟩⟩⟩ : Framebuffer).depth.texture ∧
      da.texels = List.replicate (Texture.area32 ⟨2, 2⟩) 0 :=
  ⟨by decide,
   framebuffer_clear_fills_color_and_depth ⟨⟨2, 2⟩, ⟨⟨2, 2⟩⟩⟩ 7
     (by decide) (by decide)⟩

end Easygpu
